import Mathlib

/-!
Shallow embedding of the repository health-analysis engine
(`daemo-agent/githubFunctions.ts`) and of the time-windowed case-analytics
engine (`analyzeCycleTimes` / `analyzeResubmissions`) of the
github_repo_organizer service, together with proofs of the behavioral
properties stated in its specification.

Modelling conventions:
* timestamps are integer milliseconds (the value of JS `Date.getTime()`);
* fractional quantities (day durations, averages, percentages) are rationals;
* `Math.round x` is Mathlib's `round x` (both are `⌊x + 1/2⌋`);
* `Number(x.toFixed(2))` is `jsToFixed2`;
* the `NaN` produced by the JS division `0 / 0` is modelled by `Option`,
  with `none` standing for NaN;
* the engines are specified over already-materialized records: the GitHub /
  Socrata fetches, the README existence probe and the SOQL `WHERE` / `ORDER BY`
  clauses happen before the embedded functions run, so a record carries the
  probe outcome (`hasReadme`) and the row lists arrive filtered and sorted.
-/

/-- Does `hay` begin with `needle`?  (Kernel of the JS
`String.prototype.includes` test; first argument is the needle.) -/
def charsStartWith : List Char → List Char → Bool
  | c :: cs, d :: ds => c == d && charsStartWith cs ds
  | [], _ => true
  | _ :: _, [] => false

/-- Does the character list contain `needle` as a contiguous run? -/
def charsContain (needle : List Char) : List Char → Bool
  | [] => needle.isEmpty
  | c :: t => charsStartWith needle (c :: t) || charsContain needle t

/-- JS `hay.includes(needle)`. -/
def jsIncludes (hay needle : String) : Bool := charsContain needle.data hay.data

/-- JS `s.toLowerCase()`, character by character (the keywords involved are
ASCII, where `Char.toLower` agrees with the JS conversion). -/
def jsToLower (s : String) : String := ⟨s.data.map Char.toLower⟩

/-- JS `Number(x.toFixed(2))`: round to two decimal places, ties toward the
larger value (ECMA `toFixed` picks the larger candidate on a tie, which is
exactly Mathlib's `round`). -/
def jsToFixed2 (x : ℚ) : ℚ := ((round (x * 100) : ℤ) : ℚ) / 100

/-! ## Repository health engine -/

/-- Metadata snapshot of one repository as consumed by the analysis
functions.  `hasReadme` is the outcome of the README existence probe (a
failing probe is `false`); `license` holds the license name when present. -/
structure RepoMeta where
  name : String
  description : Option String
  license : Option String
  hasReadme : Bool
  updatedAt : Option ℤ
  stargazersCount : ℕ
  forksCount : ℕ
  language : Option String
  isPrivate : Bool
deriving Repr, DecidableEq

structure Recommendation where
  priority : String
  action : String
deriving Repr, DecidableEq

structure HealthReport where
  name : String
  healthScore : ℤ
  issues : List String
  strengths : List String
  recommendations : List Recommendation
deriving Repr, DecidableEq

/-- JS `!repo.description || repo.description.length < 10` (an empty string
is falsy in JS, hence the first disjunct). -/
def weakDescription : Option String → Bool
  | none => true
  | some s => s == "" || decide (s.length < 10)

/-- JS `repo.updated_at && new Date(repo.updated_at) > oneMonthAgo`. -/
def recentlyUpdated (oneMonthAgo : ℤ) : Option ℤ → Bool
  | none => false
  | some t => decide (oneMonthAgo < t)

/-- The single-repository health analysis (`getRepositoryHealth`), over an
already-fetched metadata record; the activity cutoff (`oneMonthAgo`) is a
parameter because the source derives it from the wall clock. -/
def getRepositoryHealth (oneMonthAgo : ℤ) (repo : RepoMeta) : HealthReport :=
  let issues : List String := []
  let strengths : List String := []
  let healthScore : ℤ := 100
  -- Check LICENSE
  let (issues, strengths, healthScore) :=
    match repo.license with
    | none => (issues ++ ["Missing LICENSE file"], strengths, healthScore - 15)
    | some licenseName =>
        (issues, strengths ++ ["Has " ++ licenseName ++ " license"], healthScore)
  -- Check description
  let (issues, strengths, healthScore) :=
    if weakDescription repo.description then
      (issues ++ ["Weak or missing description"], strengths, healthScore - 10)
    else
      (issues, strengths ++ ["Has detailed description"], healthScore)
  -- Check README
  let (issues, strengths, healthScore) :=
    if repo.hasReadme then
      (issues, strengths ++ ["Has README.md"], healthScore)
    else
      (issues ++ ["Missing README.md"], strengths, healthScore - 20)
  -- Check activity
  let (issues, strengths, healthScore) :=
    if recentlyUpdated oneMonthAgo repo.updatedAt then
      (issues, strengths ++ ["Recently updated"], healthScore)
    else
      (issues ++ ["Not recently updated"], strengths, healthScore - 10)
  -- Check stars/engagement
  let strengths :=
    if 10 < repo.stargazersCount then
      strengths ++ [toString repo.stargazersCount ++ " stars"]
    else strengths
  -- Generate recommendations
  let recommendations : List Recommendation := []
  let recommendations :=
    if issues.contains "Missing README.md" then
      recommendations ++
        [⟨"high", "Add a comprehensive README with installation and usage instructions"⟩]
    else recommendations
  let recommendations :=
    if issues.contains "Missing LICENSE file" then
      recommendations ++
        [⟨"high", "Add an appropriate LICENSE file (MIT recommended for open source)"⟩]
    else recommendations
  let recommendations :=
    if issues.contains "Weak or missing description" then
      recommendations ++
        [⟨"medium", "Add a clear, concise description explaining what the project does"⟩]
    else recommendations
  { name := repo.name
    healthScore := max 0 (min 100 healthScore)
    issues := issues
    strengths := strengths
    recommendations := recommendations }

/-- Fixed penalty attached to each single-repo issue message. -/
def issuePenalty : String → ℤ
  | "Missing LICENSE file" => 15
  | "Weak or missing description" => 10
  | "Missing README.md" => 20
  | "Not recently updated" => 10
  | _ => 0

def issuePenalties (issues : List String) : ℤ := (issues.map issuePenalty).sum

/-- Keyword list of the practice/demo heuristic in `analyzeAllRepositories`
(note: the source list stops at "temp"). -/
def practiceKeywords : List String :=
  ["practice", "test", "learning", "tutorial", "example", "demo", "temp"]

/-- JS `repo.description && repo.description.toLowerCase().includes(keyword)`
(an empty string is falsy, hence the first conjunct). -/
def descriptionMentions (d : Option String) (keyword : String) : Bool :=
  match d with
  | none => false
  | some s => !(s == "") && jsIncludes (jsToLower s) keyword

def isPractice (repo : RepoMeta) : Bool :=
  practiceKeywords.any fun keyword =>
    jsIncludes (jsToLower repo.name) keyword || descriptionMentions repo.description keyword

/-- Condition under which `analyzeAllRepositories` pushes the
medium-severity issue "Practice/demo code should be private". -/
def practiceIssueEmitted (repo : RepoMeta) : Bool := isPractice repo && !repo.isPrivate

/-- Spec-side comparison definition: the same heuristic but over the keyword
set as the specification states it, with "experiment" included. -/
def practiceKeywordsSpec : List String :=
  ["practice", "test", "learning", "tutorial", "example", "demo", "temp", "experiment"]

/-- Spec-side comparison definition of the practice/demo issue condition. -/
def practiceIssueSpec (repo : RepoMeta) : Bool :=
  !repo.isPrivate && practiceKeywordsSpec.any fun keyword =>
    jsIncludes (jsToLower repo.name) keyword || descriptionMentions repo.description keyword

/-- Portfolio-wide aggregate of `getPortfolioStatistics`.  The language
histogram and the generated insight strings are advisory output not
referenced by any verified property and are omitted here. -/
structure PortfolioStats where
  totalRepositories : ℕ
  publicRepos : ℕ
  privateRepos : ℕ
  totalStars : ℕ
  totalForks : ℕ
  licenseCoverage : Option ℤ
  readmeCoverage : ℤ
deriving Repr, DecidableEq

/-- `getPortfolioStatistics` over an already-fetched repository list.
`licenseCoverage` is `Option ℤ` because the source computes
`Math.round((licensed / repos.length) * 100)` unconditionally, and on an
empty list the JS value is `Math.round((0 / 0) * 100) = NaN` (here `none`).
`readmeCoverage` reproduces the hard-coded placeholder `85`. -/
def getPortfolioStatistics (repos : List RepoMeta) : PortfolioStats :=
  { totalRepositories := repos.length
    publicRepos := (repos.filter fun r => !r.isPrivate).length
    privateRepos := (repos.filter fun r => r.isPrivate).length
    totalStars := (repos.map fun r => r.stargazersCount).sum
    totalForks := (repos.map fun r => r.forksCount).sum
    licenseCoverage :=
      if repos.length = 0 then none
      else
        some (round ((((repos.filter fun r => r.license.isSome).length : ℚ) /
          (repos.length : ℚ)) * 100))
    readmeCoverage := 85 }

/-! ## Time-windowed case analytics engine -/

/-- A row reaching the statistics part of `analyzeCycleTimes`: the SOQL
query already restricted to closed requests with a non-null close date, so
both timestamps are present (ms). -/
structure ClosedRow where
  requestedAt : ℤ
  closedAt : ℤ
deriving Repr, DecidableEq

structure CycleStats where
  totalClosedAnalyzed : ℕ
  avgDaysToClose : ℚ
  medianDaysToClose : ℚ
  maxDaysToClose : ℚ
  minDaysToClose : ℚ
deriving Repr, DecidableEq

def msPerDay : ℚ := 1000 * 60 * 60 * 24

/-- `(end − start) / (1000 * 60 * 60 * 24)`: fractional days, negative when
the close timestamp precedes the request timestamp. -/
def durationDays (r : ClosedRow) : ℚ := ((r.closedAt - r.requestedAt : ℤ) : ℚ) / msPerDay

/-- The in-memory statistics part of `analyzeCycleTimes`, over the rows the
query returned.  JS `Array.prototype.sort((a, b) => a - b)` sorts the
numbers ascending; on a linear order any sort produces that unique sorted
permutation, embedded here as `List.insertionSort`. -/
def analyzeCycleTimes (rows : List ClosedRow) : CycleStats :=
  if rows.length = 0 then
    { totalClosedAnalyzed := 0, avgDaysToClose := 0, medianDaysToClose := 0
      maxDaysToClose := 0, minDaysToClose := 0 }
  else
    let durations := List.insertionSort (· ≤ ·) (rows.map durationDays)
    let sum := durations.sum
    let avg := sum / (durations.length : ℚ)
    let mid := durations.length / 2
    let median :=
      if durations.length % 2 ≠ 0 then durations.getD mid 0
      else (durations.getD (mid - 1) 0 + durations.getD mid 0) / 2
    { totalClosedAnalyzed := rows.length
      avgDaysToClose := jsToFixed2 avg
      medianDaysToClose := jsToFixed2 median
      maxDaysToClose := jsToFixed2 (durations.getD (durations.length - 1) 0)
      minDaysToClose := jsToFixed2 (durations.getD 0 0) }

/-- Spec-side comparison definition: the median of an already-sorted list —
the middle element for odd length, the average of the two central elements
for even length. -/
def medianOfSorted (l : List ℚ) : ℚ :=
  if l.length % 2 = 1 then l.getD (l.length / 2) 0
  else (l.getD (l.length / 2 - 1) 0 + l.getD (l.length / 2) 0) / 2

/-- A row of `analyzeResubmissions` (the columns its SOQL query selects). -/
structure CaseRow where
  serviceRequestId : String
  serviceName : String
  serviceSubtype : String
  address : String
  requestedAt : ℤ
  closedAt : Option ℤ
  statusDescription : String
deriving Repr, DecidableEq

/-- An entry of the bounded `examples` list (field-for-field the object the
source pushes). -/
structure ResubExample where
  originalCase : String
  closedAt : Option ℤ
  resubmittedCase : String
  openedAt : ℤ
  address : String
  issue : String
deriving Repr, DecidableEq

structure ResubReport where
  totalCasesScanned : ℕ
  potentialResubmissions : ℕ
  resubmissionRatePercent : ℚ
  examples : List ResubExample
deriving Repr, DecidableEq

def reopenWindowDays : ℚ := 7

/-- The adjacent-pair test of `analyzeResubmissions`: same address, same
subtype, earlier record closed, and the gap in days lies in
`[0, reopenWindowDays]`. -/
def isResubPair (prev curr : CaseRow) : Bool :=
  if prev.address == curr.address && prev.serviceSubtype == curr.serviceSubtype then
    match prev.closedAt with
    | some prevClosed =>
        let diffDays : ℚ := ((curr.requestedAt - prevClosed : ℤ) : ℚ) / msPerDay
        decide (0 ≤ diffDays) && decide (diffDays ≤ reopenWindowDays)
    | none => false
  else false

def mkResubExample (prev curr : CaseRow) : ResubExample :=
  { originalCase := prev.serviceRequestId
    closedAt := prev.closedAt
    resubmittedCase := curr.serviceRequestId
    openedAt := curr.requestedAt
    address := curr.address
    issue := curr.serviceSubtype }

/-- One iteration of the scan loop: bump the counter and, while fewer than 5
examples have been collected, append the matched pair. -/
def resubStep (acc : ℕ × List ResubExample) (pc : CaseRow × CaseRow) :
    ℕ × List ResubExample :=
  if isResubPair pc.1 pc.2 then
    (acc.1 + 1, if acc.2.length < 5 then acc.2 ++ [mkResubExample pc.1 pc.2] else acc.2)
  else acc

/-- `analyzeResubmissions` over the rows the query returned (the query
orders them by address, subtype, requested time ascending). -/
def analyzeResubmissions (rows : List CaseRow) : ResubReport :=
  let scan := (rows.zip rows.tail).foldl resubStep (0, [])
  { totalCasesScanned := rows.length
    potentialResubmissions := scan.1
    resubmissionRatePercent :=
      if 0 < rows.length then jsToFixed2 (((scan.1 : ℚ) / (rows.length : ℚ)) * 100)
      else 0
    examples := scan.2 }

/-- All matched pairs in scan order, uncapped (the `examples` list of the
report is its 5-element prefix). -/
def resubExamplesAll (rows : List CaseRow) : List ResubExample :=
  (rows.zip rows.tail).filterMap fun pc =>
    if isResubPair pc.1 pc.2 then some (mkResubExample pc.1 pc.2) else none

/-! ## Concrete records used in the scenario theorems -/

def nowMs : ℤ := 1700000000000

def oneMonthAgoMs : ℤ := nowMs - 30 * 86400000

def sevenMonthsAgoMs : ℤ := nowMs - 7 * 30 * 86400000

/-- The record of the classification scenario: empty description, no
license, failing README probe, last update seven months in the past, name
containing "demo", public. -/
def demoRepo : RepoMeta :=
  { name := "demo-project", description := some "", license := none,
    hasReadme := false, updatedAt := some sevenMonthsAgoMs,
    stargazersCount := 0, forksCount := 0, language := none, isPrivate := false }

/-- A public repository whose name contains the keyword "experiment" (and
none of the keywords actually present in the source list). -/
def experimentRepo : RepoMeta :=
  { name := "experiment", description := none, license := some "MIT",
    hasReadme := true, updatedAt := some nowMs, stargazersCount := 0,
    forksCount := 0, language := some "TypeScript", isPrivate := false }

/-- A single licensed repository, used to instantiate portfolio bounds. -/
def mitRepo : RepoMeta :=
  { name := "organizer", description := some "A repository organizer tool",
    license := some "MIT", hasReadme := true, updatedAt := some nowMs,
    stargazersCount := 12, forksCount := 3, language := some "TypeScript",
    isPrivate := false }

/-- Resubmission scenario, first record: closed on day 0. -/
def caseDay0 : CaseRow :=
  { serviceRequestId := "1", serviceName := "Encampments", serviceSubtype := "S",
    address := "A", requestedAt := 0, closedAt := some 0,
    statusDescription := "Closed" }

/-- Resubmission scenario, second record requested on day 5. -/
def caseDay5 : CaseRow :=
  { serviceRequestId := "2", serviceName := "Encampments", serviceSubtype := "S",
    address := "A", requestedAt := 5 * 86400000, closedAt := none,
    statusDescription := "Open" }

/-- Resubmission scenario, second record requested on day 8. -/
def caseDay8 : CaseRow :=
  { serviceRequestId := "2", serviceName := "Encampments", serviceSubtype := "S",
    address := "A", requestedAt := 8 * 86400000, closedAt := none,
    statusDescription := "Open" }

/-- Closed rows whose durations are 3, 1 and 2 days. -/
def cycleRows3 : List ClosedRow :=
  [{ requestedAt := 0, closedAt := 3 * 86400000 },
   { requestedAt := 0, closedAt := 1 * 86400000 },
   { requestedAt := 0, closedAt := 2 * 86400000 }]

/-- Closed rows whose durations are 3, 1, 4 and 2 days. -/
def cycleRows4 : List ClosedRow :=
  [{ requestedAt := 0, closedAt := 3 * 86400000 },
   { requestedAt := 0, closedAt := 1 * 86400000 },
   { requestedAt := 0, closedAt := 4 * 86400000 },
   { requestedAt := 0, closedAt := 2 * 86400000 }]

/-! ## Helper lemmas -/

theorem charsStartWith_iff (needle hay : List Char) :
    charsStartWith needle hay = true ↔ ∃ t, hay = needle ++ t := by
  induction needle generalizing hay with
  | nil => simp [charsStartWith]
  | cons a as ih =>
      cases hay with
      | nil => simp [charsStartWith]
      | cons b bs =>
          simp only [charsStartWith, Bool.and_eq_true, beq_iff_eq, ih, List.cons_append,
            List.cons.injEq]
          constructor
          · rintro ⟨rfl, t, rfl⟩
            exact ⟨t, rfl, rfl⟩
          · rintro ⟨t, rfl, rfl⟩
            exact ⟨rfl, t, rfl⟩

theorem charsContain_iff (needle hay : List Char) :
    charsContain needle hay = true ↔ ∃ p t, hay = p ++ needle ++ t := by
  induction hay with
  | nil =>
      simp only [charsContain, List.isEmpty_iff]
      constructor
      · rintro rfl
        exact ⟨[], [], rfl⟩
      · rintro ⟨p, t, h⟩
        rcases List.append_eq_nil.mp (List.append_eq_nil.mp h.symm).1 with ⟨-, h2⟩
        exact h2
  | cons c t ih =>
      simp only [charsContain, Bool.or_eq_true, charsStartWith_iff, ih]
      constructor
      · rintro (⟨u, hu⟩ | ⟨p, u, hu⟩)
        · exact ⟨[], u, by simpa using hu⟩
        · exact ⟨c :: p, u, by simp [hu]⟩
      · rintro ⟨p, u, hu⟩
        cases p with
        | nil => exact Or.inl ⟨u, by simpa using hu⟩
        | cons d ds =>
            simp only [List.cons_append, List.cons.injEq] at hu
            exact Or.inr ⟨ds, u, hu.2⟩

theorem jsIncludes_iff (hay needle : String) :
    jsIncludes hay needle = true ↔ ∃ p t, hay.data = p ++ needle.data ++ t := by
  simpa [jsIncludes] using charsContain_iff needle.data hay.data

theorem descriptionMentions_iff (d : Option String) (k : String) :
    descriptionMentions d k = true ↔
      ∃ s, d = some s ∧ s ≠ "" ∧ jsIncludes (jsToLower s) k = true := by
  cases d with
  | none => simp [descriptionMentions]
  | some s => simp [descriptionMentions]

theorem roundMono {x y : ℚ} (h : x ≤ y) : round x ≤ round y := by
  rw [round_eq, round_eq]
  exact Int.floor_le_floor (by linarith)

theorem jsToFixed2_mono {x y : ℚ} (h : x ≤ y) : jsToFixed2 x ≤ jsToFixed2 y := by
  unfold jsToFixed2
  have : (round (x * 100) : ℚ) ≤ (round (y * 100) : ℚ) := by
    exact_mod_cast roundMono (by linarith)
  linarith

theorem sorted_getD_le_getD {l : List ℚ} (hs : List.Sorted (· ≤ ·) l) {i j : ℕ}
    (hij : i ≤ j) (hj : j < l.length) : l.getD i 0 ≤ l.getD j 0 := by
  have hi : i < l.length := lt_of_le_of_lt hij hj
  rw [List.getD_eq_getElem?_getD, List.getD_eq_getElem?_getD,
    List.getElem?_eq_getElem hi, List.getElem?_eq_getElem hj]
  simpa using hs.rel_get_of_le (a := ⟨i, hi⟩) (b := ⟨j, hj⟩) hij

theorem sorted_getD_zero_le_mem {l : List ℚ} (hs : List.Sorted (· ≤ ·) l) {x : ℚ}
    (hx : x ∈ l) : l.getD 0 0 ≤ x := by
  obtain ⟨i, hi, rfl⟩ := List.mem_iff_get.mp hx
  have := sorted_getD_le_getD hs (Nat.zero_le i.1) i.2
  rwa [List.getD_eq_getElem?_getD (n := i.1), List.getElem?_eq_getElem i.2] at this

theorem sorted_mem_le_getD_last {l : List ℚ} (hs : List.Sorted (· ≤ ·) l) {x : ℚ}
    (hx : x ∈ l) : x ≤ l.getD (l.length - 1) 0 := by
  obtain ⟨i, hi, rfl⟩ := List.mem_iff_get.mp hx
  have hlast : l.length - 1 < l.length :=
    Nat.sub_lt (Nat.pos_of_ne_zero (by rintro h; exact Nat.not_lt_zero i.1 (h ▸ i.2))) one_pos
  have := sorted_getD_le_getD hs (Nat.le_sub_one_of_lt i.2) hlast
  rwa [List.getD_eq_getElem?_getD (n := i.1), List.getElem?_eq_getElem i.2] at this

theorem resubFoldl_eq (pairs : List (CaseRow × CaseRow)) :
    ∀ (n : ℕ) (ex : List ResubExample),
      pairs.foldl resubStep (n, ex) =
        (n + (pairs.filterMap fun pc =>
            if isResubPair pc.1 pc.2 then some (mkResubExample pc.1 pc.2) else none).length,
          ex ++ (pairs.filterMap fun pc =>
            if isResubPair pc.1 pc.2 then some (mkResubExample pc.1 pc.2) else none).take
              (5 - ex.length)) := by
  induction pairs with
  | nil => simp
  | cons p ps ih =>
      intro n ex
      by_cases hp : isResubPair p.1 p.2
      · rw [List.foldl_cons]
        by_cases hl : ex.length < 5
        · rw [show resubStep (n, ex) p = (n + 1, ex ++ [mkResubExample p.1 p.2]) from by
            simp [resubStep, hp, hl]]
          rw [ih]
          simp only [List.filterMap_cons, hp, if_pos, List.length_cons, List.length_append,
            List.length_singleton]
          refine Prod.ext (by omega) ?_
          have h5 : 5 - ex.length = (5 - (ex.length + 1)) + 1 := by omega
          rw [h5, List.take_succ_cons]
          simp
        · rw [show resubStep (n, ex) p = (n + 1, ex) from by simp [resubStep, hp, hl]]
          rw [ih]
          simp only [List.filterMap_cons, hp, if_pos, List.length_cons]
          refine Prod.ext (by omega) ?_
          have h5 : 5 - ex.length = 0 := by omega
          simp [h5]
      · rw [List.foldl_cons, show resubStep (n, ex) p = (n, ex) from by simp [resubStep, hp]]
        rw [ih]
        simp [List.filterMap_cons, hp]

/-! ## Claim theorems -/

/-- C6: on an empty filtered input, `analyzeCycleTimes` returns `count = 0`
and all four statistics equal to `0`; being a total function of the row
list, it cannot raise for this case. -/
theorem C6_empty_input_all_zero :
    analyzeCycleTimes [] =
      { totalClosedAnalyzed := 0, avgDaysToClose := 0, medianDaysToClose := 0
        maxDaysToClose := 0, minDaysToClose := 0 } := rfl

/-- C9: `analyzeCycleTimes` applies no filter to the rows it receives (the
count always equals the row count), a record closed before it was requested
produces a negative `durationDays`, and such a record flows into the
statistics as-is: one row closed one day before its request yields
`avg = median = min = max = -1`. -/
theorem C9_negative_duration_propagates :
    (∀ rows : List ClosedRow, (analyzeCycleTimes rows).totalClosedAnalyzed = rows.length) ∧
    durationDays { requestedAt := 86400000, closedAt := 0 } = -1 ∧
    analyzeCycleTimes [{ requestedAt := 86400000, closedAt := 0 }] =
      { totalClosedAnalyzed := 1, avgDaysToClose := -1, medianDaysToClose := -1
        maxDaysToClose := -1, minDaysToClose := -1 } := by
  refine ⟨?_, ?_, ?_⟩
  · intro rows
    by_cases h : rows.length = 0
    · simp [analyzeCycleTimes, h, List.length_eq_zero.mp h]
    · simp [analyzeCycleTimes, h]
  · norm_num [durationDays, msPerDay]
  · norm_num [analyzeCycleTimes, durationDays, msPerDay, jsToFixed2,
      List.insertionSort, List.orderedInsert, round_eq]

/-- C7: for every input, the report of `analyzeResubmissions` lists at most
5 examples, namely the first 5 detected pairs in scan order (`examples` is
exactly the 5-element prefix of the uncapped scan-order list), the counter
equals the number of all detected pairs, and the rate is
`resubmissions / scannedCount × 100` rounded to 2 decimals, with rate `0`
when no rows were scanned. -/
theorem C7_examples_capped_and_rate (rows : List CaseRow) :
    (analyzeResubmissions rows).examples = (resubExamplesAll rows).take 5 ∧
    (analyzeResubmissions rows).examples.length ≤ 5 ∧
    (analyzeResubmissions rows).potentialResubmissions = (resubExamplesAll rows).length ∧
    (analyzeResubmissions rows).resubmissionRatePercent =
      (if 0 < rows.length then
        jsToFixed2 (((resubExamplesAll rows).length : ℚ) / (rows.length : ℚ) * 100)
      else 0) := by
  have hfold := resubFoldl_eq (rows.zip rows.tail) 0 []
  refine ⟨?_, ?_, ?_, ?_⟩ <;>
    simp only [analyzeResubmissions, resubExamplesAll, hfold, Nat.zero_add,
      List.nil_append, Nat.sub_zero] <;>
    try rfl
  rw [List.length_take]
  exact min_le_left _ _


theorem divDay_nonneg_iff (d : ℤ) : (0 ≤ ((d : ℚ) / msPerDay)) ↔ 0 ≤ d := by
  rw [le_div_iff₀ (by norm_num [msPerDay] : (0:ℚ) < msPerDay)]
  simp

theorem divDay_le_window_iff (d : ℤ) :
    (((d : ℚ) / msPerDay) ≤ reopenWindowDays) ↔ d ≤ 7 * 86400000 := by
  rw [div_le_iff₀ (by norm_num [msPerDay] : (0:ℚ) < msPerDay)]
  rw [show reopenWindowDays * msPerDay = ((7 * 86400000 : ℤ) : ℚ) by
    norm_num [msPerDay, reopenWindowDays]]
  exact Int.cast_le

/-- C4: a consecutive pair is counted as a resubmission exactly when address
and subtype match, the earlier record was closed, and the gap from close to
the new request is between 0 and 7 days inclusive; concretely, a record
closed on day 0 followed by one at the same address/subtype requested on
day 5 is detected and appears in `examples`, while one requested on day 8
is not detected. -/
theorem C4_resubmission_window :
    (∀ prev curr : CaseRow,
      isResubPair prev curr = true ↔
        prev.address = curr.address ∧ prev.serviceSubtype = curr.serviceSubtype ∧
          ∃ t, prev.closedAt = some t ∧ 0 ≤ curr.requestedAt - t ∧
            curr.requestedAt - t ≤ 7 * 86400000) ∧
    analyzeResubmissions [caseDay0, caseDay5] =
      { totalCasesScanned := 2, potentialResubmissions := 1,
        resubmissionRatePercent := 50,
        examples := [{ originalCase := "1", closedAt := some 0, resubmittedCase := "2",
                       openedAt := 5 * 86400000, address := "A", issue := "S" }] } ∧
    analyzeResubmissions [caseDay0, caseDay8] =
      { totalCasesScanned := 2, potentialResubmissions := 0,
        resubmissionRatePercent := 0, examples := [] } := by
  refine ⟨?_, ?_, ?_⟩
  · intro prev curr
    rcases hc : prev.closedAt with _ | t
    · simp [isResubPair, hc]
    · by_cases hA : prev.address = curr.address
      · by_cases hS : prev.serviceSubtype = curr.serviceSubtype
        · simp [isResubPair, hc, hA, hS]
          rw [show ((curr.requestedAt : ℚ) - (t : ℚ)) = ((curr.requestedAt - t : ℤ) : ℚ) by
            push_cast; ring]
          rw [divDay_nonneg_iff, divDay_le_window_iff]
          omega
        · simp [isResubPair, hc, hA, hS]
      · simp [isResubPair, hA]
  · norm_num [analyzeResubmissions, resubStep, isResubPair, mkResubExample,
      caseDay0, caseDay5, jsToFixed2, msPerDay, reopenWindowDays, round_eq]
  · norm_num [analyzeResubmissions, resubStep, isResubPair, mkResubExample,
      caseDay0, caseDay8, jsToFixed2, msPerDay, reopenWindowDays, round_eq]

/-- C1 counterexample: on the classification-scenario record (empty
description, no license, failing README probe, updated seven months ago,
name containing "demo", public) the single-repository health score is 45,
not the claimed 40: `getRepositoryHealth` deducts 15 for a missing license,
not 20. -/
theorem C1_score_not_forty :
    (getRepositoryHealth oneMonthAgoMs demoRepo).healthScore = 45 ∧
    (getRepositoryHealth oneMonthAgoMs demoRepo).healthScore ≠ 40 := by
  decide

/-- C1 amended: on the scenario record `getRepositoryHealth` reports
exactly the issues missing-license, weak-description, missing-readme and
stale (in this order), and the score is
`100 − 15 (license) − 10 (description) − 20 (readme) − 10 (stale) = 45`. -/
theorem C1_demo_scenario_health :
    (getRepositoryHealth oneMonthAgoMs demoRepo).issues =
      ["Missing LICENSE file", "Weak or missing description", "Missing README.md",
        "Not recently updated"] ∧
    (getRepositoryHealth oneMonthAgoMs demoRepo).healthScore = 45 := by
  decide

/-- C3 counterexample: a public repository named "experiment" satisfies the
keyword condition as the claim states it (its set includes "experiment")
but the code does not emit the practice/demo issue — the source keyword
list stops at "temp". -/
theorem C3_experiment_not_flagged :
    practiceIssueEmitted experimentRepo = false ∧
    practiceIssueSpec experimentRepo = true := by
  decide

/-- C3 amended: the issue "Practice/demo code should be private" is emitted
exactly when the repository is not private and its lower-cased name, or its
present non-empty lower-cased description, contains one of the seven
keywords practice, test, learning, tutorial, example, demo, temp as a
substring. -/
theorem C3_practice_issue_characterization (repo : RepoMeta) :
    practiceIssueEmitted repo = true ↔
      repo.isPrivate = false ∧ ∃ k ∈ practiceKeywords,
        (∃ p t, (jsToLower repo.name).data = p ++ k.data ++ t) ∨
        (∃ s, repo.description = some s ∧ s ≠ "" ∧
          ∃ p t, (jsToLower s).data = p ++ k.data ++ t) := by
  simp only [practiceIssueEmitted, Bool.and_eq_true, Bool.not_eq_true', isPractice,
    List.any_eq_true, Bool.or_eq_true, jsIncludes_iff, descriptionMentions_iff]
  constructor
  · rintro ⟨⟨k, hk, h⟩, hp⟩
    exact ⟨hp, k, hk, h⟩
  · rintro ⟨hp, k, hk, h⟩
    exact ⟨⟨k, hk, h⟩, hp⟩

/-- C2: `licenseCoverage` is `licensed / total × 100` rounded to the nearest
integer and lies in `[0, 100]` for every non-empty record set; on the empty
set, however, the source divides by zero, so the value is NaN (`none`), not
the `0` the claim states. -/
theorem C2_license_coverage :
    (getPortfolioStatistics []).licenseCoverage = none ∧
    ∀ repos : List RepoMeta, repos ≠ [] →
      ∃ v, (getPortfolioStatistics repos).licenseCoverage = some v ∧ 0 ≤ v ∧ v ≤ 100 := by
  refine ⟨rfl, ?_⟩
  intro repos h
  have hlen : repos.length ≠ 0 := fun hh => h (List.length_eq_zero.mp hh)
  have hpos : (0 : ℚ) < (repos.length : ℚ) := by
    exact_mod_cast Nat.pos_of_ne_zero hlen
  refine ⟨round ((((repos.filter fun r => r.license.isSome).length : ℚ) /
      (repos.length : ℚ)) * 100), ?_, ?_, ?_⟩
  · simp [getPortfolioStatistics, hlen]
  · have h0 : (0 : ℚ) ≤ (((repos.filter fun r => r.license.isSome).length : ℚ) /
        (repos.length : ℚ)) * 100 := by positivity
    simpa using roundMono h0
  · have h1 : ((repos.filter fun r => r.license.isSome).length : ℚ) /
        (repos.length : ℚ) ≤ 1 := by
      rw [div_le_one hpos]
      exact_mod_cast List.length_filter_le _ repos
    have h100 : (((repos.filter fun r => r.license.isSome).length : ℚ) /
        (repos.length : ℚ)) * 100 ≤ 100 := by nlinarith
    have := roundMono h100
    rwa [show round (100 : ℚ) = 100 by
      rw [show (100 : ℚ) = ((100 : ℤ) : ℚ) by norm_num, round_intCast]] at this

/-- Witness for the bounded part of the license-coverage theorem, at a
one-element repository list. -/
theorem C2_witness :
    (getPortfolioStatistics []).licenseCoverage = none ∧
    ∃ v, (getPortfolioStatistics [mitRepo]).licenseCoverage = some v ∧ 0 ≤ v ∧ v ≤ 100 :=
  ⟨C2_license_coverage.1, C2_license_coverage.2 [mitRepo] (by simp)⟩

/-- C8: `getRepositoryHealth` is a pure function of the record (repeated
calls agree), and its score equals
`clamp(100 − Σ penalty(issue), 0, 100)` over the issues it reports, hence
always lies in `[0, 100]`. -/
theorem C8_score_clamp_and_range (oneMonthAgo : ℤ) (repo : RepoMeta) :
    getRepositoryHealth oneMonthAgo repo = getRepositoryHealth oneMonthAgo repo ∧
    (getRepositoryHealth oneMonthAgo repo).healthScore =
      max 0 (min 100 (100 - issuePenalties (getRepositoryHealth oneMonthAgo repo).issues)) ∧
    0 ≤ (getRepositoryHealth oneMonthAgo repo).healthScore ∧
    (getRepositoryHealth oneMonthAgo repo).healthScore ≤ 100 := by
  have main : (getRepositoryHealth oneMonthAgo repo).healthScore =
      max 0 (min 100 (100 - issuePenalties (getRepositoryHealth oneMonthAgo repo).issues)) := by
    obtain ⟨name, desc, lic, readme, upd, stars, forks, lang, priv⟩ := repo
    cases lic <;> cases h1 : weakDescription desc <;> cases readme <;>
        cases h2 : recentlyUpdated oneMonthAgo upd <;>
      simp [getRepositoryHealth, h1, h2, issuePenalties, issuePenalty]
  refine ⟨rfl, main, ?_, ?_⟩
  · rw [main]; exact le_max_left _ _
  · rw [main]; exact max_le (by norm_num) (min_le_left _ _)

theorem getD_head (l : List ℚ) : l.getD 0 0 = l.head?.getD 0 := by
  rw [List.head?_eq_getElem?, List.getD_eq_getElem?_getD]

theorem getD_last (l : List ℚ) : l.getD (l.length - 1) 0 = l.getLast?.getD 0 := by
  rw [List.getLast?_eq_getElem?, List.getD_eq_getElem?_getD]

theorem analyzeCycleTimes_eq (rows : List ClosedRow) (h : rows.length ≠ 0) :
    analyzeCycleTimes rows =
      { totalClosedAnalyzed := rows.length
        avgDaysToClose := jsToFixed2
          ((List.insertionSort (· ≤ ·) (rows.map durationDays)).sum /
            ((List.insertionSort (· ≤ ·) (rows.map durationDays)).length : ℚ))
        medianDaysToClose := jsToFixed2
          (medianOfSorted (List.insertionSort (· ≤ ·) (rows.map durationDays)))
        maxDaysToClose := jsToFixed2
          ((List.insertionSort (· ≤ ·) (rows.map durationDays)).getD
            ((List.insertionSort (· ≤ ·) (rows.map durationDays)).length - 1) 0)
        minDaysToClose := jsToFixed2
          ((List.insertionSort (· ≤ ·) (rows.map durationDays)).getD 0 0) } := by
  simp only [analyzeCycleTimes, if_neg h, medianOfSorted, ne_eq, Nat.mod_two_ne_zero]

/-- C5: for every non-empty filtered input, `analyzeCycleTimes` sorts the
durations ascending (the statistics are computed from a sorted permutation
`ds` of the duration list) and returns `avg = sum/count`, `median` = middle
element for odd count or the mean of the two central elements for even
count, and `min`/`max` = the sorted extremes, each rounded to 2 decimals;
concretely, durations `[1, 2, 3]` give median 2 and `[1, 2, 3, 4]` give
median 2.5. -/
theorem C5_sorted_statistics :
    (∀ rows : List ClosedRow, rows ≠ [] →
      ∃ ds, ds.Perm (rows.map durationDays) ∧ List.Sorted (· ≤ ·) ds ∧
        analyzeCycleTimes rows =
          { totalClosedAnalyzed := rows.length
            avgDaysToClose := jsToFixed2 (ds.sum / (rows.length : ℚ))
            medianDaysToClose := jsToFixed2 (medianOfSorted ds)
            maxDaysToClose := jsToFixed2 (ds.getLast?.getD 0)
            minDaysToClose := jsToFixed2 (ds.head?.getD 0) }) ∧
    (analyzeCycleTimes cycleRows3).medianDaysToClose = 2 ∧
    (analyzeCycleTimes cycleRows4).medianDaysToClose = 5 / 2 := by
  refine ⟨?_, ?_, ?_⟩
  · intro rows h
    have hlen : rows.length ≠ 0 := fun hh => h (List.length_eq_zero.mp hh)
    refine ⟨List.insertionSort (· ≤ ·) (rows.map durationDays),
      List.perm_insertionSort _ _, List.sorted_insertionSort _ _, ?_⟩
    have hlds : (List.insertionSort (· ≤ ·) (rows.map durationDays)).length = rows.length := by
      rw [(List.perm_insertionSort (· ≤ ·) (rows.map durationDays)).length_eq,
        List.length_map]
    rw [analyzeCycleTimes_eq rows hlen, getD_head, getD_last, hlds]
  · norm_num [analyzeCycleTimes, cycleRows3, durationDays, msPerDay, jsToFixed2,
      List.insertionSort, List.orderedInsert, round_eq]
  · norm_num [analyzeCycleTimes, cycleRows4, durationDays, msPerDay, jsToFixed2,
      List.insertionSort, List.orderedInsert, round_eq]

/-- C10: for every non-empty filtered input the returned statistics are
internally ordered: `min ≤ median ≤ max` and `min ≤ avg ≤ max` (the
2-decimal rounding applied to each is monotone). -/
theorem C10_statistics_ordered (rows : List ClosedRow) (h : rows ≠ []) :
    (analyzeCycleTimes rows).minDaysToClose ≤ (analyzeCycleTimes rows).medianDaysToClose ∧
    (analyzeCycleTimes rows).medianDaysToClose ≤ (analyzeCycleTimes rows).maxDaysToClose ∧
    (analyzeCycleTimes rows).minDaysToClose ≤ (analyzeCycleTimes rows).avgDaysToClose ∧
    (analyzeCycleTimes rows).avgDaysToClose ≤ (analyzeCycleTimes rows).maxDaysToClose := by
  have hlen : rows.length ≠ 0 := fun hh => h (List.length_eq_zero.mp hh)
  rw [analyzeCycleTimes_eq rows hlen]
  dsimp only
  set ds := List.insertionSort (· ≤ ·) (rows.map durationDays) with hds
  have hsort : List.Sorted (· ≤ ·) ds := List.sorted_insertionSort _ _
  have hl : ds.length = rows.length := by
    rw [hds, (List.perm_insertionSort (· ≤ ·) (rows.map durationDays)).length_eq,
      List.length_map]
  have hpos : 0 < ds.length := by omega
  have hQpos : (0 : ℚ) < (ds.length : ℚ) := by exact_mod_cast hpos
  have hmidlt : ds.length / 2 < ds.length := Nat.div_lt_self hpos one_lt_two
  have hlast : ds.length - 1 < ds.length := by omega
  have hminmed : ds.getD 0 0 ≤ medianOfSorted ds := by
    unfold medianOfSorted
    by_cases hp : ds.length % 2 = 1
    · rw [if_pos hp]
      exact sorted_getD_le_getD hsort (Nat.zero_le _) hmidlt
    · rw [if_neg hp]
      have hm1lt : ds.length / 2 - 1 < ds.length := by omega
      have a1 := sorted_getD_le_getD hsort (Nat.zero_le (ds.length / 2 - 1)) hm1lt
      have a2 := sorted_getD_le_getD hsort (Nat.zero_le (ds.length / 2)) hmidlt
      linarith
  have hmedmax : medianOfSorted ds ≤ ds.getD (ds.length - 1) 0 := by
    unfold medianOfSorted
    by_cases hp : ds.length % 2 = 1
    · rw [if_pos hp]
      exact sorted_getD_le_getD hsort (by omega) hlast
    · rw [if_neg hp]
      have b1 := sorted_getD_le_getD hsort
        (show ds.length / 2 - 1 ≤ ds.length - 1 by omega) hlast
      have b2 := sorted_getD_le_getD hsort
        (show ds.length / 2 ≤ ds.length - 1 by omega) hlast
      linarith
  have hminavg : ds.getD 0 0 ≤ ds.sum / (ds.length : ℚ) := by
    have hb := List.card_nsmul_le_sum ds (ds.getD 0 0)
      (fun x hx => sorted_getD_zero_le_mem hsort hx)
    rw [nsmul_eq_mul] at hb
    rw [le_div_iff₀ hQpos, mul_comm]
    exact hb
  have havgmax : ds.sum / (ds.length : ℚ) ≤ ds.getD (ds.length - 1) 0 := by
    have hb := List.sum_le_card_nsmul ds (ds.getD (ds.length - 1) 0)
      (fun x hx => sorted_mem_le_getD_last hsort hx)
    rw [nsmul_eq_mul] at hb
    rw [div_le_iff₀ hQpos, mul_comm]
    exact hb
  exact ⟨jsToFixed2_mono hminmed, jsToFixed2_mono hmedmax,
    jsToFixed2_mono hminavg, jsToFixed2_mono havgmax⟩

/-- Witness for the sorted-statistics theorem at the three-row input. -/
theorem C5_witness :
    ∃ ds, ds.Perm (cycleRows3.map durationDays) ∧ List.Sorted (· ≤ ·) ds ∧
      analyzeCycleTimes cycleRows3 =
        { totalClosedAnalyzed := cycleRows3.length
          avgDaysToClose := jsToFixed2 (ds.sum / (cycleRows3.length : ℚ))
          medianDaysToClose := jsToFixed2 (medianOfSorted ds)
          maxDaysToClose := jsToFixed2 (ds.getLast?.getD 0)
          minDaysToClose := jsToFixed2 (ds.head?.getD 0) } :=
  C5_sorted_statistics.1 cycleRows3 (by simp [cycleRows3])

/-- Witness for the ordered-statistics theorem at a one-row input. -/
theorem C10_witness :
    (analyzeCycleTimes [{ requestedAt := 0, closedAt := 86400000 }]).minDaysToClose ≤
      (analyzeCycleTimes [{ requestedAt := 0, closedAt := 86400000 }]).medianDaysToClose ∧
    (analyzeCycleTimes [{ requestedAt := 0, closedAt := 86400000 }]).medianDaysToClose ≤
      (analyzeCycleTimes [{ requestedAt := 0, closedAt := 86400000 }]).maxDaysToClose ∧
    (analyzeCycleTimes [{ requestedAt := 0, closedAt := 86400000 }]).minDaysToClose ≤
      (analyzeCycleTimes [{ requestedAt := 0, closedAt := 86400000 }]).avgDaysToClose ∧
    (analyzeCycleTimes [{ requestedAt := 0, closedAt := 86400000 }]).avgDaysToClose ≤
      (analyzeCycleTimes [{ requestedAt := 0, closedAt := 86400000 }]).maxDaysToClose :=
  C10_statistics_ordered [{ requestedAt := 0, closedAt := 86400000 }] (by simp)
